import Mathlib

set_option maxHeartbeats 1000000

/-!
Verification of the device-registry tool `adb_connect_map.py`.

The external bridge commands are modeled as a pure query environment: each
command's result is an `Option String`, where `none` stands for a failed
command (non-zero exit, `adb_command` returning `None`) and `some s` for the
stripped output `s`.  Within one pass, repeated invocations of the same
command are modeled as returning the same output.  Python exceptions that can
escape the translated functions (list index out of range) are modeled with
`Except Unit`.
-/

/-- Python truthiness of an optional command output: `None` and `""` are falsy. -/
def pyTruthy : Option String → Bool
  | none => false
  | some s => s != ""

/-- Character-list infix test: `sub` occurs contiguously in the list. -/
def charsContain (sub : List Char) : List Char → Bool
  | [] => sub.isEmpty
  | c :: rest => sub.isPrefixOf (c :: rest) || charsContain sub rest

/-- Python substring test `sub in s`. -/
def strContains (s sub : String) : Bool :=
  charsContain sub.data s.data

/-- Splitting a character list at every character satisfying `p`, keeping
empty pieces, as Python `str.split(sep)` does for a one-character separator. -/
def splitChars (p : Char → Bool) (acc : List Char) : List Char → List (List Char)
  | [] => [acc.reverse]
  | c :: rest =>
    if p c then acc.reverse :: splitChars p [] rest
    else splitChars p (c :: acc) rest

/-- Python `str.split(sep)` for a one-character separator. -/
def strSplitOn (sep : Char) (s : String) : List String :=
  (splitChars (fun c => c == sep) [] s.data).map String.mk

/-- The whitespace characters Python `str.strip` and `str.split()` use
(the ones that occur in command output). -/
def isPySpace (c : Char) : Bool :=
  c == ' ' || c == '\t' || c == '\n' || c == '\r'

/-- Python `str.strip()`. -/
def strTrim (s : String) : String :=
  String.mk (((s.data.dropWhile isPySpace).reverse.dropWhile isPySpace).reverse)

/-- Python `str.splitlines` for newline-separated command output. -/
def splitlines (s : String) : List String :=
  if s = "" then []
  else if s.data.getLast? == some '\n' then (strSplitOn '\n' s).dropLast
  else strSplitOn '\n' s

/-- Python `str.split()` with no separator: split on whitespace runs,
dropping empty pieces. -/
def pySplitWs (s : String) : List String :=
  ((splitChars isPySpace [] s.data).map String.mk).filter (fun t => t != "")

/-- Python list indexing `l[i]` for a nonnegative index: an out-of-range
index raises IndexError, modeled as `Except.error ()`. -/
def pyGet {α : Type} (l : List α) (i : Nat) : Except Unit α :=
  match l[i]? with
  | some x => .ok x
  | none => .error ()

instance instDecEqExceptUnit {ε α : Type} [DecidableEq ε] [DecidableEq α] :
    DecidableEq (Except ε α)
  | .error e, .error f =>
    if h : e = f then .isTrue (by rw [h]) else .isFalse (fun hh => h (Except.error.inj hh))
  | .error _, .ok _ => .isFalse (fun hh => Except.noConfusion hh)
  | .ok _, .error _ => .isFalse (fun hh => Except.noConfusion hh)
  | .ok a, .ok b =>
    if h : a = b then .isTrue (by rw [h]) else .isFalse (fun hh => h (Except.ok.inj hh))

/-- Query environment: the outputs the external adb commands produce during
one pass, keyed by the serial they are issued for. -/
structure AdbEnv where
  devices : Option String
  devicesL : Option String
  model : String → Option String
  deviceType : String → Option String
  serialno : String → Option String
  ipQuery : String → Option String

/-- A persisted registry record (one entry of `device_map.json`).
`ip_address` is an `Option String`: `none` models Python `None`
(serialized as JSON `null`), which the source can store in that field. -/
structure DeviceRec where
  name : String
  serial : String
  model : String
  device_type : String
  ip_address : Option String
  status : String
deriving DecidableEq

/-- The transient snapshot assembled by `get_device_info`. -/
structure DeviceFacts where
  model : String
  device_type : String
  serial_number : String
  ip_address : Option String
deriving DecidableEq

/-- Scan of the `adb devices -l` lines (source lines 41-47): the first line
containing the serial as a substring decides wifi (line contains `:5555`)
versus usb; `offline` if no line matches. -/
def connTypeScan (serial : String) : List String → String
  | [] => "offline"
  | line :: rest =>
    if strContains line serial then
      if strContains line ":5555" then "wifi" else "usb"
    else connTypeScan serial rest

/-- `get_device_connection_type` (source lines 29-48). -/
def get_device_connection_type (env : AdbEnv) (serial : String) : String :=
  if pyTruthy env.devicesL then connTypeScan serial (splitlines (env.devicesL.getD ""))
  else "offline"

/-- `get_device_ip` (source lines 50-63): when the address query output is
truthy, take the second whitespace token and the part before its first
slash.  Python raises IndexError when the non-empty output has fewer than
two whitespace tokens. -/
def get_device_ip (env : AdbEnv) (serial : String) : Except Unit (Option String) :=
  if pyTruthy (env.ipQuery serial) then
    match pyGet (pySplitWs ((env.ipQuery serial).getD "")) 1 with
    | .error e => .error e
    | .ok tok => .ok (some ((strSplitOn '/' tok).headD ""))
  else .ok none

/-- `get_device_info` (source lines 65-97): three property queries, the
medium, a conditional address fetch (only when wifi; `None` when usb or
offline), and a final truthiness gate on the three properties. -/
def get_device_info (env : AdbEnv) (serial : String) : Except Unit (Option DeviceFacts) :=
  match (if get_device_connection_type env serial = "wifi"
         then get_device_ip env serial else .ok none) with
  | .error e => .error e
  | .ok ip =>
    if pyTruthy (env.model serial) && pyTruthy (env.deviceType serial) &&
        pyTruthy (env.serialno serial) then
      .ok (some { model := (env.model serial).getD "",
                  device_type := (env.deviceType serial).getD "",
                  serial_number := (env.serialno serial).getD "", ip_address := ip })
    else .ok none

/-- Scan of the `adb devices` lines for `get_device_status` (source lines
110-115): the first line containing the serial as a substring is split on
tabs and its second field returned; a containing line without a tab raises
IndexError. -/
def statusScan (serial : String) : List String → Except Unit String
  | [] => .ok "offline"
  | line :: rest =>
    if strContains line serial then pyGet (strSplitOn '\t' line) 1
    else statusScan serial rest

/-- `get_device_status` (source lines 99-115). -/
def get_device_status (env : AdbEnv) (serial : String) : Except Unit String :=
  if pyTruthy env.devices then statusScan serial (splitlines (env.devices.getD ""))
  else .ok "offline"

/-- One to three decimal digits. -/
def isOctet (s : String) : Bool :=
  s != "" && decide (s.data.length ≤ 3) && s.data.all (fun c => c.isDigit)

/-- The regular-expression filter of source line 136: four dot-separated
groups of one to three digits, a colon, then one or more digits. -/
def matchesIpPort (s : String) : Bool :=
  match strSplitOn ':' s with
  | [ip, port] =>
    (port != "" && port.data.all (fun c => c.isDigit)) &&
    (match strSplitOn '.' ip with
     | [a, b, c, d] => isOctet a && isOctet b && isOctet c && isOctet d
     | _ => false)
  | _ => false

/-- The serial extracted from a flat-listing line: first tab field, blanked
when it matches the IPv4:port filter (source lines 135-137). -/
def lineSerial (line : String) : String :=
  if matchesIpPort ((strSplitOn '\t' line).headD "") then ""
  else (strSplitOn '\t' line).headD ""

/-- Python falsiness of the stored `ip_address` value: `None` or empty. -/
def ipFalsy : Option String → Bool
  | none => true
  | some s => s == ""

/-- Membership of a serial among the registry records (source lines 130
and 144). -/
def serialKnown (recs : List DeviceRec) (serial : String) : Bool :=
  recs.any fun d => d.serial == serial

/-- The wifi address fill-in of source lines 158-162: run the address query
(`or ""`), and if the output is non-empty store the part of the second
whitespace token before its first slash. -/
def wifiFill (env : AdbEnv) (serial : String) (d : DeviceRec) : Except Unit DeviceRec :=
  if (env.ipQuery serial).getD "" != "" then
    match pyGet (pySplitWs ((env.ipQuery serial).getD "")) 1 with
    | .error e => .error e
    | .ok tok => .ok { d with ip_address := some ((strSplitOn '/' tok).headD "") }
  else .ok d

/-- Source lines 148-150: fetch and fill the model only when it is empty. -/
def fillModel (env : AdbEnv) (serial : String) (d : DeviceRec) : DeviceRec :=
  if d.model = "" then { d with model := (env.model serial).getD "" } else d

/-- Source lines 152-154: fetch and fill the device type only when empty. -/
def fillDeviceType (env : AdbEnv) (serial : String) (d : DeviceRec) : DeviceRec :=
  if d.device_type = "" then { d with device_type := (env.deviceType serial).getD "" } else d

/-- Source lines 158-162: when the medium is wifi and the stored address is
falsy, run the address fill-in. -/
def fillIpWifi (env : AdbEnv) (serial ct : String) (d : DeviceRec) : Except Unit DeviceRec :=
  if ct == "wifi" && ipFalsy d.ip_address then wifiFill env serial d else .ok d

/-- Source lines 164-166: when the medium is usb and the stored address is
falsy, set the address to the empty string. -/
def fillIpUsb (ct : String) (d : DeviceRec) : DeviceRec :=
  if ct == "usb" && ipFalsy d.ip_address then { d with ip_address := some "" } else d

/-- Source lines 168-170: refresh the status field when it differs. -/
def refreshStatus (status : String) (d : DeviceRec) : DeviceRec :=
  if d.status ≠ status then { d with status := status } else d

/-- Update of an existing registry record (source lines 145-173): fill model
and device type only when currently empty, re-derive the medium, fill the
address when wireless and the stored address is falsy, set the address to
the empty string when wired and the stored address is falsy, and refresh
the status field when it differs. -/
def updateExisting (env : AdbEnv) (serial status : String) (d : DeviceRec) :
    Except Unit DeviceRec :=
  match fillIpWifi env serial (get_device_connection_type env serial)
      (fillDeviceType env serial (fillModel env serial d)) with
  | .error e => .error e
  | .ok d3 => .ok (refreshStatus status (fillIpUsb (get_device_connection_type env serial) d3))

/-- Creation of a registry record for an unseen serial (source lines
175-186): run `get_device_info`; on success build the new record.  Note the
`ip_address` field receives the facts' value unchanged: for a wired device
that value is Python `None`, because `get_device_info` always includes the
key, so the `.get("ip_address", "")` default never applies. -/
def mkNewDevice (env : AdbEnv) (serial status : String) : Except Unit (Option DeviceRec) :=
  match get_device_info env serial with
  | .error e => .error e
  | .ok none => .ok none
  | .ok (some f) =>
    .ok (some { name := "", serial := serial, model := f.model,
                device_type := f.device_type, ip_address := f.ip_address,
                status := status })

/-- In-place update of the record `device_index` points at: the last record
whose serial matches (a later duplicate overwrites an earlier one in the
index dictionary, and appended records are indexed at the end). -/
def updateLastRec (env : AdbEnv) (serial status : String) :
    List DeviceRec → Except Unit (List DeviceRec)
  | [] => .ok []
  | d :: rest =>
    if serialKnown rest serial then
      match updateLastRec env serial status rest with
      | .error e => .error e
      | .ok rest2 => .ok (d :: rest2)
    else if d.serial = serial then
      match updateExisting env serial status d with
      | .error e => .error e
      | .ok d2 => .ok (d2 :: rest)
    else .ok (d :: rest)

/-- Processing of one line of the flat listing inside `update_device_map`
(source lines 133-191): skip blank lines and the header, extract and filter
the serial, re-query the status, and on `device` either update the indexed
record or append a freshly extracted one; any other status only prints a
notice and leaves the registry untouched. -/
def processLine (env : AdbEnv) (recs : List DeviceRec) (line : String) :
    Except Unit (List DeviceRec) :=
  if strTrim line = "" || strTrim line = "List of devices attached" then .ok recs
  else if lineSerial line = "" then .ok recs
  else
    match get_device_status env (lineSerial line) with
    | .error e => .error e
    | .ok status =>
      if status = "device" then
        if serialKnown recs (lineSerial line) then
          updateLastRec env (lineSerial line) status recs
        else
          match mkNewDevice env (lineSerial line) status with
          | .error e => .error e
          | .ok (some r) => .ok (recs ++ [r])
          | .ok none => .ok recs
      else .ok recs

/-- Left-to-right processing of all listing lines (the for loop of source
line 133). -/
def processLines (env : AdbEnv) : List DeviceRec → List String → Except Unit (List DeviceRec)
  | recs, [] => .ok recs
  | recs, line :: rest =>
    match processLine env recs line with
    | .error e => .error e
    | .ok recs2 => processLines env recs2 rest

/-- `update_device_map` (source lines 117-194) as a function from the loaded
registry contents to the persisted registry contents.  When the flat listing
is falsy the registry is written back unchanged. -/
def update_device_map (env : AdbEnv) (recs : List DeviceRec) : Except Unit (List DeviceRec) :=
  if pyTruthy env.devices then processLines env recs (splitlines (env.devices.getD ""))
  else .ok recs

/-- Scan of the `adb devices` lines for `is_device_authorized` (source lines
213-219): at the first line containing the serial as a substring, status
`device` answers true, `unauthorized` answers false, and any other status
keeps scanning; a containing line without a tab raises IndexError. -/
def authScan (serial : String) : List String → Except Unit Bool
  | [] => .ok false
  | line :: rest =>
    if strContains line serial then
      match pyGet (strSplitOn '\t' line) 1 with
      | .error e => .error e
      | .ok status =>
        if status = "device" then .ok true
        else if status = "unauthorized" then .ok false
        else authScan serial rest
    else authScan serial rest

/-- `is_device_authorized` (source lines 198-220). -/
def is_device_authorized (env : AdbEnv) (serial : String) : Except Unit Bool :=
  if pyTruthy env.devices then authScan serial (splitlines (env.devices.getD ""))
  else .ok false

/-- The claim's reading of the authorization contract, from the spec's
words: the flat listing contains a line whose serial field (first tab
field) equals the serial and whose status field is `device`. -/
def listingHasDeviceLine (env : AdbEnv) (serial : String) : Bool :=
  match env.devices with
  | none => false
  | some out =>
    (splitlines out).any fun line =>
      ((strSplitOn '\t' line).headD "" == serial) &&
      ((strSplitOn '\t' line).getD 1 "" == "device")

/-- The serials the session launcher sends a disconnect to (source lines
303-308): every listed record different from the selected one, with no
medium test. -/
def disconnectTargets (devices : List DeviceRec) (selected : DeviceRec) : List String :=
  (devices.filter fun d => d != selected).map fun d => d.serial

/-- Python list indexing with a possibly negative index (`devices[choice - 1]`
at source line 253): a negative index counts from the end, and a still
out-of-range index raises IndexError. -/
def pyListGet (l : List DeviceRec) (i : Int) : Except Unit DeviceRec :=
  if 0 ≤ (if i < 0 then (l.length : Int) + i else i) then
    match l[(if i < 0 then (l.length : Int) + i else i).toNat]? with
    | some x => .ok x
    | none => .error ()
  else .error ()

/-- One round of `display_device_menu` (source lines 249-273) on an integer
input: `ok none` models the out-of-range re-prompt (the recursive call of
the source), `ok (some k)` a returned value, and `error` an uncaught
IndexError escaping the indexing of the device list. -/
def display_device_menu_step (env : AdbEnv) (devices : List DeviceRec) (choice : Int) :
    Except Unit (Option Int) :=
  if 0 ≤ choice ∧ choice ≤ (devices.length : Int) then
    match pyListGet devices (choice - 1) with
    | .error e => .error e
    | .ok selected =>
      match is_device_authorized env selected.serial with
      | .error e => .error e
      | .ok auth => if auth then .ok (some choice) else .ok (some 0)
  else .ok none

/-- Environment in which every query fails. -/
def envBase : AdbEnv :=
  { devices := none, devicesL := none, model := fun _ => none,
    deviceType := fun _ => none, serialno := fun _ => none, ipQuery := fun _ => none }

/-- Scenario environment: one authorized wired serial `ABC123` whose three
property queries succeed (model `Pixel7`), listed without a `:5555` suffix. -/
def envWired : AdbEnv :=
  { devices := some "List of devices attached\nABC123\tdevice",
    devicesL := some "ABC123\tdevice usb:1-4",
    model := fun s => if s == "ABC123" then some "Pixel7" else none,
    deviceType := fun s => if s == "ABC123" then some "panther" else none,
    serialno := fun s => if s == "ABC123" then some "ABC123SER" else none,
    ipQuery := fun _ => none }

/-- The record the first reconciliation pass of `envWired` appends. -/
def recWired1 : DeviceRec :=
  { name := "", serial := "ABC123", model := "Pixel7", device_type := "panther",
    ip_address := none, status := "device" }

/-- The same record after the second pass rewrites its address field. -/
def recWired2 : DeviceRec :=
  { recWired1 with ip_address := some "" }

/-- A registry record carrying a user-assigned name for serial `ABC123`. -/
def recNamed : DeviceRec :=
  { name := "My", serial := "ABC123", model := "Pixel7", device_type := "panther",
    ip_address := some "", status := "device" }

/-- Scenario environment: serial `XYZ` is authorized and currently wired. -/
def envUsbKeep : AdbEnv :=
  { envBase with
    devices := some "List of devices attached\nXYZ\tdevice",
    devicesL := some "XYZ\tdevice usb:1-4" }

/-- A record for `XYZ` still holding the address of an earlier wireless
session. -/
def recKept : DeviceRec :=
  { name := "MyPhone", serial := "XYZ", model := "Pixel", device_type := "px",
    ip_address := some "192.168.1.5", status := "device" }

/-- Session-launcher scenario: `WIRED1` is listed over usb. -/
def envLauncher : AdbEnv :=
  { envBase with
    devices := some "WIRED1\tdevice\nSEL1\tdevice",
    devicesL := some "WIRED1\tdevice usb:1-4\nSEL1\tdevice" }

/-- The wired, non-selected device of the launcher scenario. -/
def devWired : DeviceRec :=
  { name := "Tab", serial := "WIRED1", model := "TabA", device_type := "gta",
    ip_address := some "", status := "device" }

/-- The selected device of the launcher scenario. -/
def devSel : DeviceRec :=
  { name := "Phone", serial := "SEL1", model := "P7", device_type := "panther",
    ip_address := some "192.168.1.7", status := "device" }

/-- Malformed address-query output: non-empty but a single whitespace token. -/
def envInet : AdbEnv :=
  { envBase with ipQuery := fun _ => some "inet" }

/-- Well-shaped address-query output. -/
def envInetOk : AdbEnv :=
  { envBase with ipQuery := fun _ => some "inet 192.168.1.5/24 brd 192.168.1.255" }

/-- Authorization scenario: the first listing line contains the serial `A`
as a substring of the unauthorized serial `AB`; the second line is the
exact line for `A` with status `device`. -/
def envAuthMix : AdbEnv :=
  { envBase with devices := some "AB\tunauthorized\nA\tdevice" }

/-- A pre-existing registry entry whose serial has the IPv4:port shape. -/
def recGhost : DeviceRec :=
  { name := "", serial := "1.2.3.4:5555", model := "M", device_type := "t",
    ip_address := none, status := "device" }

/-- Environment whose flat listing shows `XYZ` as offline. -/
def envOffline : AdbEnv :=
  { envBase with devices := some "XYZ\toffline" }

/-- The single live device of the menu scenario. -/
def devMenu : DeviceRec :=
  { name := "", serial := "D1", model := "M1", device_type := "t1",
    ip_address := none, status := "device" }

/-- Menu scenario environment: `D1` is authorized. -/
def envMenuOk : AdbEnv :=
  { envBase with devices := some "D1\tdevice" }

/-- Menu scenario environment whose listing line for `D1` has no tab, so the
authorization scan raises IndexError. -/
def envMenuBad : AdbEnv :=
  { envBase with devices := some "D1x" }

/-- The two registry-shape facts one pass preserves: every original position
still holds a record with the same serial and name, and every record of the
result either takes its serial from the input registry or has a serial that
does not match the IPv4:port filter. -/
def RegistryStep (recs recs2 : List DeviceRec) : Prop :=
  (∀ (i : Nat) (d : DeviceRec), recs[i]? = some d →
     ∃ d2 : DeviceRec, recs2[i]? = some d2 ∧ d2.serial = d.serial ∧ d2.name = d.name) ∧
  (∀ d2 ∈ recs2, (∃ d ∈ recs, d.serial = d2.serial) ∨ matchesIpPort d2.serial = false)

theorem fillModel_keeps (env : AdbEnv) (serial : String) (d : DeviceRec) :
    (fillModel env serial d).serial = d.serial ∧ (fillModel env serial d).name = d.name ∧
    (fillModel env serial d).ip_address = d.ip_address ∧
    (fillModel env serial d).status = d.status := by
  unfold fillModel; split <;> exact ⟨rfl, rfl, rfl, rfl⟩

theorem fillDeviceType_keeps (env : AdbEnv) (serial : String) (d : DeviceRec) :
    (fillDeviceType env serial d).serial = d.serial ∧
    (fillDeviceType env serial d).name = d.name ∧
    (fillDeviceType env serial d).ip_address = d.ip_address ∧
    (fillDeviceType env serial d).status = d.status := by
  unfold fillDeviceType; split <;> exact ⟨rfl, rfl, rfl, rfl⟩

theorem wifiFill_keeps (env : AdbEnv) (serial : String) (d d2 : DeviceRec)
    (h : wifiFill env serial d = .ok d2) :
    d2.serial = d.serial ∧ d2.name = d.name := by
  simp only [wifiFill] at h
  split at h
  · split at h
    · exact Except.noConfusion h
    · injection h with h; subst h; exact ⟨rfl, rfl⟩
  · injection h with h; subst h; exact ⟨rfl, rfl⟩

theorem fillIpWifi_keeps (env : AdbEnv) (serial ct : String) (d d2 : DeviceRec)
    (h : fillIpWifi env serial ct d = .ok d2) :
    d2.serial = d.serial ∧ d2.name = d.name := by
  simp only [fillIpWifi] at h
  split at h
  · exact wifiFill_keeps env serial d d2 h
  · injection h with h; subst h; exact ⟨rfl, rfl⟩

theorem fillIpWifi_not_wifi (env : AdbEnv) (serial ct : String) (d : DeviceRec)
    (h : (ct == "wifi") = false) : fillIpWifi env serial ct d = .ok d := by
  simp [fillIpWifi, h]

theorem fillIpUsb_keeps (ct : String) (d : DeviceRec) :
    (fillIpUsb ct d).serial = d.serial ∧ (fillIpUsb ct d).name = d.name := by
  unfold fillIpUsb; split <;> exact ⟨rfl, rfl⟩

theorem fillIpUsb_usb (d : DeviceRec) :
    (fillIpUsb "usb" d).ip_address =
      (if ipFalsy d.ip_address then some "" else d.ip_address) := by
  unfold fillIpUsb
  by_cases h : ipFalsy d.ip_address
  · simp [h]
  · simp [h]

theorem refreshStatus_keeps (status : String) (d : DeviceRec) :
    (refreshStatus status d).serial = d.serial ∧ (refreshStatus status d).name = d.name ∧
    (refreshStatus status d).ip_address = d.ip_address := by
  unfold refreshStatus; split <;> exact ⟨rfl, rfl, rfl⟩

theorem updateExisting_keeps (env : AdbEnv) (serial status : String) (d d2 : DeviceRec)
    (h : updateExisting env serial status d = .ok d2) :
    d2.serial = d.serial ∧ d2.name = d.name := by
  simp only [updateExisting] at h
  split at h
  · exact Except.noConfusion h
  · rename_i d3 heq
    injection h with h
    subst h
    have h1 := fillModel_keeps env serial d
    have h2 := fillDeviceType_keeps env serial (fillModel env serial d)
    have h3 := fillIpWifi_keeps env serial (get_device_connection_type env serial) _ d3 heq
    have h4 := fillIpUsb_keeps (get_device_connection_type env serial) d3
    have h5 := refreshStatus_keeps status (fillIpUsb (get_device_connection_type env serial) d3)
    refine ⟨?_, ?_⟩
    · rw [h5.1, h4.1, h3.1, h2.1, h1.1]
    · rw [h5.2.1, h4.2, h3.2, h2.2.1, h1.2.1]

theorem mkNewDevice_ok (env : AdbEnv) (serial status : String) (r : DeviceRec)
    (h : mkNewDevice env serial status = .ok (some r)) :
    r.serial = serial ∧ r.name = "" ∧ r.status = status := by
  simp only [mkNewDevice] at h
  split at h
  · exact Except.noConfusion h
  · injection h with h; exact Option.noConfusion h
  · injection h with h; injection h with h; subst h; exact ⟨rfl, rfl, rfl⟩

theorem lineSerial_not_ipport (line : String) (h : lineSerial line ≠ "") :
    matchesIpPort (lineSerial line) = false := by
  unfold lineSerial at h ⊢
  split at h
  · exact absurd rfl h
  · rename_i hm
    rw [if_neg hm]
    simpa using hm

theorem updateLastRec_pointwise (env : AdbEnv) (serial status : String) :
    ∀ (recs recs2 : List DeviceRec), updateLastRec env serial status recs = .ok recs2 →
      recs2.length = recs.length ∧
      ∀ (i : Nat) (d : DeviceRec), recs[i]? = some d →
        ∃ d2 : DeviceRec, recs2[i]? = some d2 ∧ d2.serial = d.serial ∧ d2.name = d.name := by
  intro recs
  induction recs with
  | nil =>
    intro recs2 h
    simp only [updateLastRec] at h
    injection h with h
    subst h
    exact ⟨rfl, by intro i d hd; simp at hd⟩
  | cons d rest ih =>
    intro recs2 h
    simp only [updateLastRec] at h
    split at h
    · -- the serial occurs further down: recurse into the tail
      split at h
      · exact Except.noConfusion h
      · rename_i rest2 heq
        injection h with h
        subst h
        obtain ⟨hlen, hpt⟩ := ih rest2 heq
        refine ⟨by simp [hlen], ?_⟩
        intro i d0 hd0
        cases i with
        | zero =>
          rw [List.getElem?_cons_zero] at hd0
          injection hd0 with hd0
          subst hd0
          exact ⟨d, by rw [List.getElem?_cons_zero], rfl, rfl⟩
        | succ j =>
          rw [List.getElem?_cons_succ] at hd0
          obtain ⟨d2, hd2, hs, hn⟩ := hpt j d0 hd0
          exact ⟨d2, by rw [List.getElem?_cons_succ]; exact hd2, hs, hn⟩
    · split at h
      · -- the head record matches and is updated in place
        split at h
        · exact Except.noConfusion h
        · rename_i d2 heq
          injection h with h
          subst h
          refine ⟨by simp, ?_⟩
          intro i d0 hd0
          cases i with
          | zero =>
            rw [List.getElem?_cons_zero] at hd0
            injection hd0 with hd0
            subst hd0
            obtain ⟨hs, hn⟩ := updateExisting_keeps env serial status d d2 heq
            exact ⟨d2, by rw [List.getElem?_cons_zero], hs, hn⟩
          | succ j =>
            rw [List.getElem?_cons_succ] at hd0
            exact ⟨d0, by rw [List.getElem?_cons_succ]; exact hd0, rfl, rfl⟩
      · -- no occurrence at all: the list is returned unchanged
        injection h with h
        subst h
        refine ⟨rfl, ?_⟩
        intro i d0 hd0
        exact ⟨d0, hd0, rfl, rfl⟩

theorem RegistryStep_refl (recs : List DeviceRec) : RegistryStep recs recs := by
  constructor
  · intro i d hd; exact ⟨d, hd, rfl, rfl⟩
  · intro d2 hd2; exact Or.inl ⟨d2, hd2, rfl⟩

theorem RegistryStep_trans (a b c : List DeviceRec)
    (h1 : RegistryStep a b) (h2 : RegistryStep b c) : RegistryStep a c := by
  obtain ⟨p1, q1⟩ := h1
  obtain ⟨p2, q2⟩ := h2
  constructor
  · intro i d hd
    obtain ⟨d2, hd2, hs2, hn2⟩ := p1 i d hd
    obtain ⟨d3, hd3, hs3, hn3⟩ := p2 i d2 hd2
    exact ⟨d3, hd3, hs3.trans hs2, hn3.trans hn2⟩
  · intro d3 hd3
    rcases q2 d3 hd3 with ⟨d2, hd2, hs⟩ | hm
    · rcases q1 d2 hd2 with ⟨d1, hd1, hs1⟩ | hm2
      · exact Or.inl ⟨d1, hd1, hs1.trans hs⟩
      · exact Or.inr (by rw [← hs]; exact hm2)
    · exact Or.inr hm

theorem pointwise_to_origin (recs recs2 : List DeviceRec)
    (hlen : recs2.length = recs.length)
    (hpt : ∀ (i : Nat) (d : DeviceRec), recs[i]? = some d →
      ∃ d2 : DeviceRec, recs2[i]? = some d2 ∧ d2.serial = d.serial ∧ d2.name = d.name) :
    ∀ d2 ∈ recs2, ∃ d ∈ recs, d.serial = d2.serial := by
  intro d2 hd2
  obtain ⟨i, hi⟩ := List.mem_iff_getElem?.mp hd2
  have hilt : i < recs2.length := (List.getElem?_eq_some.mp hi).1
  have hilt2 : i < recs.length := by rw [← hlen]; exact hilt
  obtain ⟨d, hd⟩ : ∃ d : DeviceRec, recs[i]? = some d := by
    rw [List.getElem?_eq_getElem hilt2]; exact ⟨_, rfl⟩
  obtain ⟨d2x, hd2x, hs, _⟩ := hpt i d hd
  rw [hi] at hd2x
  injection hd2x with hd2x
  subst hd2x
  exact ⟨d, List.mem_iff_getElem?.mpr ⟨i, hd⟩, hs.symm⟩

theorem processLine_step (env : AdbEnv) (recs recs2 : List DeviceRec) (line : String)
    (h : processLine env recs line = .ok recs2) : RegistryStep recs recs2 := by
  simp only [processLine] at h
  split at h
  · injection h with h; subst h; exact RegistryStep_refl _
  · split at h
    · injection h with h; subst h; exact RegistryStep_refl _
    · rename_i hne
      split at h
      · exact Except.noConfusion h
      · rename_i status hst
        split at h
        · split at h
          · obtain ⟨hlen, hpt⟩ :=
              updateLastRec_pointwise env (lineSerial line) status recs recs2 h
            exact ⟨hpt, fun d2 hd2 =>
              Or.inl (pointwise_to_origin recs recs2 hlen hpt d2 hd2)⟩
          · split at h
            · exact Except.noConfusion h
            · rename_i r hmk
              injection h with h
              subst h
              constructor
              · intro i d hd
                have hilt : i < recs.length := (List.getElem?_eq_some.mp hd).1
                exact ⟨d, by rw [List.getElem?_append_left hilt]; exact hd, rfl, rfl⟩
              · intro d2 hd2
                rcases List.mem_append.mp hd2 with hmem | hmem
                · exact Or.inl ⟨d2, hmem, rfl⟩
                · have hd2r : d2 = r := by simpa using hmem
                  subst hd2r
                  obtain ⟨hser, _, _⟩ := mkNewDevice_ok env (lineSerial line) status d2 hmk
                  right
                  rw [hser]
                  exact lineSerial_not_ipport line hne
            · injection h with h; subst h; exact RegistryStep_refl _
        · injection h with h; subst h; exact RegistryStep_refl _

theorem processLines_steps (env : AdbEnv) :
    ∀ (lines : List String) (recs recs2 : List DeviceRec),
      processLines env recs lines = .ok recs2 → RegistryStep recs recs2 := by
  intro lines
  induction lines with
  | nil =>
    intro recs recs2 h
    simp only [processLines] at h
    injection h with h; subst h; exact RegistryStep_refl _
  | cons line rest ih =>
    intro recs recs2 h
    simp only [processLines] at h
    split at h
    · exact Except.noConfusion h
    · rename_i recsMid heq
      exact RegistryStep_trans recs recsMid recs2
        (processLine_step env recs recsMid line heq) (ih recsMid recs2 h)

theorem update_device_map_step (env : AdbEnv) (recs recs2 : List DeviceRec)
    (h : update_device_map env recs = .ok recs2) : RegistryStep recs recs2 := by
  simp only [update_device_map] at h
  split at h
  · exact processLines_steps env _ recs recs2 h
  · injection h with h; subst h; exact RegistryStep_refl _

/-- Claim C5: for every registry record with a non-empty `name` field, a
reconciliation pass leaves that name unchanged regardless of what the live
device queries return — the record at the same position of the persisted
registry carries the same name. -/
theorem c5_name_preservation (env : AdbEnv) (recs recs2 : List DeviceRec)
    (h : update_device_map env recs = .ok recs2) :
    ∀ (i : Nat) (d : DeviceRec), recs[i]? = some d → d.name ≠ "" →
      ∃ d2 : DeviceRec, recs2[i]? = some d2 ∧ d2.name = d.name := by
  intro i d hd _
  obtain ⟨d2, hd2, _, hn⟩ := (update_device_map_step env recs recs2 h).1 i d hd
  exact ⟨d2, hd2, hn⟩

/-- Claim C5 witness: a concrete pass over a named record keeps the name `My`. -/
theorem c5_witness :
    ∃ d2 : DeviceRec, ([recNamed] : List DeviceRec)[0]? = some d2 ∧
      d2.name = recNamed.name :=
  c5_name_preservation envWired [recNamed] [recNamed] (by decide) 0 recNamed
    (by decide) (by decide)

/-- Claim C8: reconciliation never removes a registry entry — every record present
before the pass is still present, with its serial and name, after the pass —
and a listing line whose re-queried status is not `device` leaves the
registry completely untouched. -/
theorem c8_no_removal :
    (∀ (env : AdbEnv) (recs recs2 : List DeviceRec),
       update_device_map env recs = .ok recs2 →
       ∀ d ∈ recs, ∃ d2 ∈ recs2, d2.serial = d.serial ∧ d2.name = d.name) ∧
    (∀ (env : AdbEnv) (recs : List DeviceRec) (line status : String),
       get_device_status env (lineSerial line) = .ok status → status ≠ "device" →
       processLine env recs line = .ok recs) := by
  constructor
  · intro env recs recs2 h d hd
    obtain ⟨i, hi⟩ := List.mem_iff_getElem?.mp hd
    obtain ⟨d2, hd2, hs, hn⟩ := (update_device_map_step env recs recs2 h).1 i d hi
    exact ⟨d2, List.mem_iff_getElem?.mpr ⟨i, hd2⟩, hs, hn⟩
  · intro env recs line status hst hne
    simp only [processLine]
    split
    · rfl
    · split
      · rfl
      · rw [hst]
        simp [hne]

/-- Claim C8 witness: the record survives a concrete pass, and an offline listing
line returns the registry unchanged. -/
theorem c8_witness :
    (∃ d2 ∈ ([recNamed] : List DeviceRec), d2.serial = recNamed.serial ∧
      d2.name = recNamed.name) ∧
    processLine envOffline [recNamed] "XYZ\toffline" = .ok [recNamed] := by
  constructor
  · exact c8_no_removal.1 envWired [recNamed] [recNamed] (by decide) recNamed
      (by decide)
  · exact c8_no_removal.2 envOffline [recNamed] "XYZ\toffline" "offline"
      (by decide) (by decide)

/-- Claim C7: a live listing line whose serial token matches the IPv4:port shape is
skipped entirely, and consequently reconciliation never introduces a registry
key of that shape — every persisted record whose serial matches the shape
was already in the input registry. -/
theorem c7_serial_filtering :
    (∀ (env : AdbEnv) (recs : List DeviceRec) (line : String),
       matchesIpPort ((strSplitOn '\t' line).headD "") = true →
       processLine env recs line = .ok recs) ∧
    (∀ (env : AdbEnv) (recs recs2 : List DeviceRec),
       update_device_map env recs = .ok recs2 →
       ∀ d2 ∈ recs2, matchesIpPort d2.serial = true →
         ∃ d ∈ recs, d.serial = d2.serial) := by
  constructor
  · intro env recs line hmatch
    simp only [processLine]
    split
    · rfl
    · have hz : lineSerial line = "" := by
        unfold lineSerial
        rw [if_pos hmatch]
      rw [if_pos hz]
  · intro env recs recs2 h d2 hd2 hm
    rcases (update_device_map_step env recs recs2 h).2 d2 hd2 with hor | hfalse
    · exact hor
    · rw [hm] at hfalse; exact Bool.noConfusion hfalse

/-- Claim C7 witness: a concrete IPv4:port listing line is skipped, and a persisted
IPv4:port key is traced back to the input registry. -/
theorem c7_witness :
    processLine envBase [] "192.168.1.5:5555\tdevice" = .ok [] ∧
    (∃ d ∈ ([recGhost] : List DeviceRec), d.serial = recGhost.serial) := by
  constructor
  · exact c7_serial_filtering.1 envBase [] "192.168.1.5:5555\tdevice" (by decide)
  · exact c7_serial_filtering.2 envBase [recGhost] [recGhost] (by decide) recGhost
      (by decide) (by decide)

theorem pyListGet_last (l : List DeviceRec) (d : DeviceRec) (h : l.getLast? = some d) :
    pyListGet l (-1) = .ok d := by
  have hlen : 1 ≤ l.length := by
    cases l with
    | nil => simp at h
    | cons a t => simp
  simp only [pyListGet]
  have e1 : (if (-1 : Int) < 0 then (l.length : Int) + (-1) else (-1)) =
      (l.length : Int) - 1 := by
    rw [if_pos (show (-1 : Int) < 0 by norm_num)]
    omega
  rw [e1]
  rw [if_pos (show (0 : Int) ≤ (l.length : Int) - 1 by omega)]
  have e3 : ((l.length : Int) - 1).toNat = l.length - 1 := by omega
  rw [e3]
  have e4 : l[l.length - 1]? = some d := by
    rw [← List.getLast?_eq_getElem? l]; exact h
  rw [e4]

/-- Claim C10: menu input 0 is accepted by the range test, so the menu indexes the
device list at position `choice - 1`, which Python resolves to the last
element, and runs the authorization check on that last device before
returning 0 (whatever the check answers, and propagating its IndexError);
with an empty device list, input 0 raises IndexError instead of returning
the exit signal. -/
theorem c10_menu_zero :
    (∀ (env : AdbEnv) (devices : List DeviceRec) (d : DeviceRec) (b : Bool),
       devices.getLast? = some d → is_device_authorized env d.serial = .ok b →
       display_device_menu_step env devices 0 = .ok (some 0)) ∧
    (∀ (env : AdbEnv) (devices : List DeviceRec) (d : DeviceRec),
       devices.getLast? = some d → is_device_authorized env d.serial = .error () →
       display_device_menu_step env devices 0 = .error ()) ∧
    (∀ env : AdbEnv, display_device_menu_step env [] 0 = .error ()) := by
  refine ⟨?_, ?_, ?_⟩
  · intro env devices d b hlast hauth
    simp only [display_device_menu_step]
    rw [if_pos (show (0 : Int) ≤ 0 ∧ (0 : Int) ≤ (devices.length : Int) by omega)]
    have hm1 : pyListGet devices ((0 : Int) - 1) = .ok d := by
      rw [show ((0 : Int) - 1) = -1 by norm_num]
      exact pyListGet_last devices d hlast
    simp only [hm1, hauth]
    cases b <;> rfl
  · intro env devices d hlast hauth
    simp only [display_device_menu_step]
    rw [if_pos (show (0 : Int) ≤ 0 ∧ (0 : Int) ≤ (devices.length : Int) by omega)]
    have hm1 : pyListGet devices ((0 : Int) - 1) = .ok d := by
      rw [show ((0 : Int) - 1) = -1 by norm_num]
      exact pyListGet_last devices d hlast
    simp only [hm1, hauth]
  · intro env
    rfl

/-- Claim C10 witness: the single-device menu with input 0 answers the exit signal
after checking that device, and a malformed listing makes the same call
raise. -/
theorem c10_witness :
    display_device_menu_step envMenuOk [devMenu] 0 = .ok (some 0) ∧
    display_device_menu_step envMenuBad [devMenu] 0 = .error () := by
  constructor
  · exact c10_menu_zero.1 envMenuOk [devMenu] devMenu true (by decide) (by decide)
  · exact c10_menu_zero.2.1 envMenuBad [devMenu] devMenu (by decide) (by decide)

/-- Claim C1 counterexample: in the session launcher, the wired device `WIRED1`
(medium usb in the launcher environment) is among the serials sent a
disconnect, refuting that only wireless devices are disconnected. -/
theorem c1_counterexample :
    devWired ∈ [devWired, devSel] ∧ devWired ≠ devSel ∧ devWired.status = "device" ∧
    get_device_connection_type envLauncher devWired.serial = "usb" ∧
    devWired.serial ∈ disconnectTargets [devWired, devSel] devSel := by decide

/-- Claim C1 (amended): the session launcher issues a disconnect for every other
currently-listed device regardless of its medium — every record different
from the selected one contributes its serial to the disconnect list, with no
medium consulted. -/
theorem c1_disconnect_all_others (devices : List DeviceRec) (selected d : DeviceRec)
    (hd : d ∈ devices) (hne : d ≠ selected) :
    d.serial ∈ disconnectTargets devices selected := by
  refine List.mem_map.mpr ⟨d, List.mem_filter.mpr ⟨hd, ?_⟩, rfl⟩
  simpa using hne

/-- Claim C1 witness: the wired device of the launcher scenario is disconnected. -/
theorem c1_witness : devWired.serial ∈ disconnectTargets [devWired, devSel] devSel :=
  c1_disconnect_all_others [devWired, devSel] devSel devWired (by decide) (by decide)

/-- Claim C2 counterexample: a pass over a wired, authorized record holding a
non-empty address leaves that address in place, refuting that a wired medium
forces `ip_address` to the empty string, and refuting the claimed after-pass
invariant. -/
theorem c2_counterexample :
    update_device_map envUsbKeep [recKept] = .ok [recKept] ∧
    get_device_connection_type envUsbKeep recKept.serial = "usb" ∧
    recKept.status = "device" ∧ recKept.ip_address ≠ some "" := by decide

/-- Claim C2 (amended): during reconciliation of an existing record the medium is
re-derived, and when it is wired the `ip_address` field is set to the empty
string only if it is currently empty or missing; a non-empty stored address
is left unchanged even though the medium is wired. -/
theorem c2_wired_fill_only_when_empty (env : AdbEnv) (serial status : String)
    (d d2 : DeviceRec) (hct : get_device_connection_type env serial = "usb")
    (h : updateExisting env serial status d = .ok d2) :
    d2.ip_address = (if ipFalsy d.ip_address then some "" else d.ip_address) := by
  simp only [updateExisting, hct] at h
  rw [fillIpWifi_not_wifi env serial "usb" _ (by decide)] at h
  have h2 : Except.ok (refreshStatus status (fillIpUsb "usb"
      (fillDeviceType env serial (fillModel env serial d)))) = Except.ok d2 := h
  injection h2 with h2
  subst h2
  have h5 := refreshStatus_keeps status
    (fillIpUsb "usb" (fillDeviceType env serial (fillModel env serial d)))
  rw [h5.2.2, fillIpUsb_usb,
    (fillDeviceType_keeps env serial (fillModel env serial d)).2.2.1,
    (fillModel_keeps env serial d).2.2.1]

/-- Claim C2 witness: the amended statement applied to the wired scenario record
whose address is missing yields the empty-string fill. -/
theorem c2_witness :
    recWired2.ip_address =
      (if ipFalsy recWired1.ip_address then some "" else recWired1.ip_address) :=
  c2_wired_fill_only_when_empty envWired "ABC123" "device" recWired1 recWired2
    (by decide) (by decide)

/-- Claim C3: reconciling a previously-unseen authorized wired serial whose three
property queries succeed appends one record whose name is empty and whose
status is current, but whose `ip_address` is Python `None` (JSON null),
not the empty string the claim requires. -/
theorem c3_new_wired_record_null_address :
    update_device_map envWired [] = .ok [recWired1] ∧
    recWired1.name = "" ∧ recWired1.status = "device" ∧
    recWired1.ip_address = none ∧ recWired1.ip_address ≠ some "" := by decide

/-- Claim C4: two passes with identical query results are not idempotent — the
first pass from the empty registry persists a null address for the wired
device, and the second pass rewrites it to the empty string, so the second
persisted registry differs from the first. -/
theorem c4_second_run_differs :
    update_device_map envWired [] = .ok [recWired1] ∧
    update_device_map envWired [recWired1] = .ok [recWired2] ∧
    recWired1 ≠ recWired2 := by decide

/-- Claim C6 counterexample: on non-empty address-query output lacking the expected
token shape (here a single token), address extraction raises IndexError
instead of silently returning no address. -/
theorem c6_counterexample :
    envInet.ipQuery "S" = some "inet" ∧ pySplitWs "inet" = ["inet"] ∧
    get_device_ip envInet "S" = .error () := by decide

/-- Claim C6 (amended): address extraction returns no address silently when the
query fails or yields empty output; on non-empty output it returns the part
of the second whitespace token before its first slash, and when the output
has fewer than two whitespace tokens it raises IndexError. -/
theorem c6_parse_behavior :
    (∀ (env : AdbEnv) (serial : String), pyTruthy (env.ipQuery serial) = false →
       get_device_ip env serial = .ok none) ∧
    (∀ (env : AdbEnv) (serial out tok : String), env.ipQuery serial = some out →
       out ≠ "" → (pySplitWs out)[1]? = some tok →
       get_device_ip env serial = .ok (some ((strSplitOn '/' tok).headD ""))) ∧
    (∀ (env : AdbEnv) (serial out : String), env.ipQuery serial = some out →
       out ≠ "" → (pySplitWs out)[1]? = none →
       get_device_ip env serial = .error ()) := by
  refine ⟨?_, ?_, ?_⟩
  · intro env serial h
    simp [get_device_ip, h]
  · intro env serial out tok hq hne hidx
    simp only [get_device_ip, hq, Option.getD_some]
    rw [if_pos (show pyTruthy (some out) = true by simp [pyTruthy, hne])]
    simp only [pyGet, hidx]
  · intro env serial out hq hne hidx
    simp only [get_device_ip, hq, Option.getD_some]
    rw [if_pos (show pyTruthy (some out) = true by simp [pyTruthy, hne])]
    simp only [pyGet, hidx]

/-- Claim C6 witness: the three branches at concrete outputs — a failed query, a
well-shaped output, and a single-token output. -/
theorem c6_witness :
    get_device_ip envBase "S" = .ok none ∧
    get_device_ip envInetOk "S" = .ok (some "192.168.1.5") ∧
    get_device_ip envInet "S" = .error () := by
  refine ⟨c6_parse_behavior.1 envBase "S" (by decide), ?_,
    c6_parse_behavior.2.2 envInet "S" "inet" (by decide) (by decide) (by decide)⟩
  have h := c6_parse_behavior.2.1 envInetOk "S" "inet 192.168.1.5/24 brd 192.168.1.255"
    "192.168.1.5/24" (by decide) (by decide) (by decide)
  have e : ((strSplitOn '/' "192.168.1.5/24").headD "") = "192.168.1.5" := by decide
  rw [e] at h
  exact h

/-- Claim C9 counterexample: with listing lines `AB<TAB>unauthorized` and
`A<TAB>device`, the listing contains a line whose serial field is `A` and
whose status field is `device`, yet the authorization check answers false,
because the scan matches the serial as a substring of the earlier line. -/
theorem c9_counterexample :
    is_device_authorized envAuthMix "A" = .ok false ∧
    listingHasDeviceLine envAuthMix "A" = true := by decide

/-- Claim C9 (amended): the check answers false when the listing query fails, and
otherwise scans the lines in order, skipping lines that do not contain the
serial as a substring; at the first containing line it answers true on
status `device`, false on `unauthorized`, keeps scanning on any other
status, raises on a containing line without a tab, and answers false when
the lines run out. -/
theorem c9_first_match_scan :
    (∀ (env : AdbEnv) (serial : String), pyTruthy env.devices = false →
       is_device_authorized env serial = .ok false) ∧
    (∀ serial : String, authScan serial [] = .ok false) ∧
    (∀ (serial line : String) (rest : List String), strContains line serial = false →
       authScan serial (line :: rest) = authScan serial rest) ∧
    (∀ (serial line : String) (rest : List String) (st : String),
       strContains line serial = true → pyGet (strSplitOn '\t' line) 1 = .ok st →
       authScan serial (line :: rest) =
         (if st = "device" then .ok true
          else if st = "unauthorized" then .ok false
          else authScan serial rest)) ∧
    (∀ (serial line : String) (rest : List String),
       strContains line serial = true → pyGet (strSplitOn '\t' line) 1 = .error () →
       authScan serial (line :: rest) = .error ()) := by
  refine ⟨?_, ?_, ?_, ?_, ?_⟩
  · intro env serial h
    simp [is_device_authorized, h]
  · intro serial
    rfl
  · intro serial line rest h
    simp only [authScan]
    rw [if_neg (by simp [h])]
  · intro serial line rest st hc hg
    simp only [authScan]
    rw [if_pos hc]
    simp only [hg]
  · intro serial line rest hc hg
    simp only [authScan]
    rw [if_pos hc]
    simp only [hg]

/-- Claim C9 witness: the amended characterization applied at concrete listings. -/
theorem c9_witness :
    is_device_authorized envBase "A" = .ok false ∧
    authScan "A" ["AB\tunauthorized", "A\tdevice"] = .ok false ∧
    authScan "A" ["B\tdevice", "A\tdevice"] = authScan "A" ["A\tdevice"] := by
  refine ⟨c9_first_match_scan.1 envBase "A" (by decide), ?_,
    c9_first_match_scan.2.2.1 "A" "B\tdevice" ["A\tdevice"] (by decide)⟩
  have h := c9_first_match_scan.2.2.2.1 "A" "AB\tunauthorized" ["A\tdevice"]
    "unauthorized" (by decide) (by decide)
  rw [if_neg (show ¬("unauthorized" = "device") by decide), if_pos rfl] at h
  exact h
